import Mathlib

/-!
Shallow embedding of the three client scripts of the repository
(`examples/chatbot-demo.py`, `test_chatbot.py`, `test_enhanced_timestamps.py`).
Each script builds a JSON-RPC `tools/call` request, POSTs it to a server,
and prints a summary of the parsed JSON response.  The embedding models
JSON values, the fragment of Python dict/list/string semantics the scripts
use, the per-run printed output of each script as a function of the network
outcome, and the request trace of the demo.
-/

namespace KAgentTools

/-- JSON values, as produced by `json.dumps` / consumed by `response.json()`.
Objects keep their key order (Python dicts preserve insertion order). -/
inductive Json where
  | str : String → Json
  | num : Int → Json
  | arr : List Json → Json
  | obj : List (String × Json) → Json

/-- Does the list `needle` occur at the head of `hay`? -/
def listStarts : List Char → List Char → Bool
  | [], _ => true
  | _ :: _, [] => false
  | a :: as, b :: bs => a == b && listStarts as bs

/-- Does the list `needle` occur anywhere inside `hay`? -/
def listSub (needle : List Char) : List Char → Bool
  | [] => needle.isEmpty
  | c :: rest => listStarts needle (c :: rest) || listSub needle rest

/-- Python `needle in hay` on two strings: substring test. -/
def strContains (hay needle : String) : Bool :=
  listSub needle.data hay.data

/-- Python `s[:n]` on a string: the first `n` characters (codepoints). -/
def pyTake (s : String) (n : Nat) : String :=
  ⟨s.data.take n⟩

/-- Python `len(s)` on a string: number of characters (codepoints). -/
def pyLen (s : String) : Nat :=
  s.data.length

/-- Python `key in value` as the scripts use it on a parsed JSON body:
key membership on a dict, element membership on a list, substring test on a
string.  (CPython raises TypeError on other values; the scripts only reach
this test with objects, so that corner is modelled as `false`.) -/
def pyContains (j : Json) (key : String) : Bool :=
  match j with
  | .obj kvs => (kvs.lookup key).isSome
  | .arr xs => xs.any (fun v => match v with | .str s => s == key | _ => false)
  | .str s => strContains s key
  | _ => false

/-- Python `value.get(key, default)` on a parsed JSON body. -/
def pyGetD (j : Json) (key : String) (dflt : Json) : Json :=
  match j with
  | .obj kvs => (kvs.lookup key).getD dflt
  | _ => dflt

mutual

/-- Python `repr` of a JSON value (as `print` shows nested dicts/lists). -/
def pyRepr : Json → String
  | .str s => "\x27" ++ s ++ "\x27"
  | .num n => toString n
  | .arr xs => "[" ++ pyReprList xs ++ "]"
  | .obj kvs => "\x7b" ++ pyReprObj kvs ++ "\x7d"

/-- Comma-separated `repr`s of the elements of a JSON array. -/
def pyReprList : List Json → String
  | [] => ""
  | [x] => pyRepr x
  | x :: xs => pyRepr x ++ ", " ++ pyReprList xs

/-- Comma-separated `key: repr` pairs of a JSON object. -/
def pyReprObj : List (String × Json) → String
  | [] => ""
  | [(k, v)] => "\x27" ++ k ++ "\x27: " ++ pyRepr v
  | (k, v) :: kvs => "\x27" ++ k ++ "\x27: " ++ pyRepr v ++ ", " ++ pyReprObj kvs

end

/-- Python `str` of a JSON value, as `print` renders an interpolated value:
a string prints as itself, other values as their `repr`. -/
def pyShow : Json → String
  | .str s => s
  | v => pyRepr v

/-- Python `value[key]` on a parsed JSON body: the field when present,
otherwise the raised exception, rendered as an error message. -/
def pyIndexStr (j : Json) (key : String) : Except String Json :=
  match j with
  | .obj kvs =>
    match kvs.lookup key with
    | some v => .ok v
    | none => .error ("KeyError: " ++ key)
  | _ => .error "TypeError: value is not subscriptable by a string key"

/-- Python `value[i]` on a parsed JSON body: the element when present,
otherwise the raised exception, rendered as an error message. -/
def pyIndexNat (j : Json) (i : Nat) : Except String Json :=
  match j with
  | .arr xs =>
    match xs.get? i with
    | some v => .ok v
    | none => .error "IndexError: list index out of range"
  | .str s =>
    match s.data.get? i with
    | some c => .ok (.str ⟨[c]⟩)
    | none => .error "IndexError: string index out of range"
  | _ => .error "TypeError: value is not subscriptable by an integer index"

/-- The nested access `body["result"]["content"][0]["text"]` shared by all
three script success paths. -/
def extractText (body : Json) : Except String Json := do
  let r ← pyIndexStr body "result"
  let c ← pyIndexStr r "content"
  let c0 ← pyIndexNat c 0
  pyIndexStr c0 "text"

/-- `Except.ok`-test as a Bool. -/
def isOkE {α : Type} (x : Except String α) : Bool :=
  match x with
  | .ok _ => true
  | .error _ => false

/-- The JSON-RPC request body built by `KAgentChatbotDemo.call_tool`
(chatbot-demo.py lines 19-29); the two test scripts build the same shape
with fixed tool name and arguments. -/
def call_tool_payload (tool_name : String) (arguments : Json) : Json :=
  .obj [("jsonrpc", .str "2.0"), ("id", .num 1), ("method", .str "tools/call"),
        ("params", .obj [("name", .str tool_name), ("arguments", arguments)])]

/-- The request envelope as the spec describes it, written from the words of the spec: `{"jsonrpc":"2.0","id":1,"method":"tools/call","params":{"name":T,
"arguments":A}}`, with no additional or missing fields. -/
def spec_request_envelope (T : String) (A : Json) : Json :=
  .obj [("jsonrpc", .str "2.0"), ("id", .num 1), ("method", .str "tools/call"),
        ("params", .obj [("name", .str T), ("arguments", A)])]

/-- The fixed payload of test_chatbot.py (lines 16-28). -/
def test_chatbot_payload : Json :=
  .obj [("jsonrpc", .str "2.0"), ("id", .num 1), ("method", .str "tools/call"),
        ("params", .obj
          [("name", .str "chatbot_query"),
           ("arguments", .obj
             [("query", .str "What\x27s happening with our services?"),
              ("timeRange", .str "3h"),
              ("limit", .num 3)])])]

/-- The fixed payload of test_enhanced_timestamps.py (lines 16-28). -/
def test_enhanced_payload : Json :=
  .obj [("jsonrpc", .str "2.0"), ("id", .num 1), ("method", .str "tools/call"),
        ("params", .obj
          [("name", .str "chatbot_query"),
           ("arguments", .obj
             [("query", .str "show me latest alerts with detailed timestamps"),
              ("timeRange", .str "3h"),
              ("limit", .num 3)])])]

/-- The `"arguments"` object of the test_chatbot.py payload. -/
def test_chatbot_args : Json :=
  .obj [("query", .str "What\x27s happening with our services?"),
        ("timeRange", .str "3h"),
        ("limit", .num 3)]

/-- The `"arguments"` object of the test_enhanced_timestamps.py payload. -/
def test_enhanced_args : Json :=
  .obj [("query", .str "show me latest alerts with detailed timestamps"),
        ("timeRange", .str "3h"),
        ("limit", .num 3)]

/-- The outcome of one HTTP round trip as the scripts observe it: either a
response with a status code and a parsed JSON body, or a raised transport
exception with its message. -/
inductive CallResult where
  | resp : Nat → Json → CallResult
  | exn : String → CallResult

/-- The preview expression of test_chatbot.py line 36:
`result["result"]["content"][0]["text"][:200] + "..."` — the ellipsis is
appended unconditionally. -/
def test_chatbot_preview (t : String) : String :=
  pyTake t 200 ++ "..."

/-- The preview expression of test_enhanced_timestamps.py line 37:
`response_text[:500] + "..."` — the ellipsis is appended unconditionally. -/
def enhanced_preview (t : String) : String :=
  pyTake t 500 ++ "..."

/-- The truncation of chatbot-demo.py lines 127-129: only responses longer
than 200 characters are cut and given an ellipsis. -/
def intent_truncate (t : String) : String :=
  if pyLen t > 200 then pyTake t 200 ++ "..." else t

/-- The hint printed by the test_chatbot.py exception handler (line 43). -/
def chatbot_hint : String :=
  "Make sure the MCP server is running on localhost:8084"

/-- Everything test_chatbot.py prints during one run, as a function of the
outcome of its single POST.  The broad `except Exception` handler (lines
41-43) also catches structural faults raised by the nested field access on
line 36, which is why this function is total: no outcome escapes unhandled. -/
def test_chatbot_run (r : CallResult) : List String :=
  "🧪 Testing KAgent Chatbot Agent..." ::
  match r with
  | .exn e => ["❌ Connection error: " ++ e, chatbot_hint]
  | .resp status body =>
    if status = 200 then
      if pyContains body "result" then
        match extractText body with
        | .ok (.str t) =>
          ["✅ Chatbot query test passed!", "Response: " ++ test_chatbot_preview t]
        | .ok _ =>
          ["✅ Chatbot query test passed!",
           "❌ Connection error: TypeError: can only concatenate str to str", chatbot_hint]
        | .error e =>
          ["✅ Chatbot query test passed!", "❌ Connection error: " ++ e, chatbot_hint]
      else
        ["❌ Chatbot query failed: " ++ pyShow (pyGetD body "error" (.str "Unknown error"))]
    else
      ["❌ HTTP error: " ++ toString status]

/-- The hint printed by the test_enhanced_timestamps.py exception handler. -/
def enhanced_hint : String :=
  "Make sure the tools server is accessible on localhost:8084"

/-- The informational line chosen by the substring check of
test_enhanced_timestamps.py lines 41-44. -/
def timestamp_note (t : String) : String :=
  if strContains t "Created:" || strContains t "Updated:" || strContains t "Collected:" then
    "✅ Enhanced timestamp fields are being used!"
  else
    "⚠️  Enhanced timestamp fields not found in response"

/-- The return value and printed lines of one run of
`test_enhanced_timestamps` (test_enhanced_timestamps.py lines 10-57), as a
function of the outcome of its single POST.  As in test_chatbot.py, the
broad exception handler catches structural faults from the nested access. -/
def test_enhanced_run (r : CallResult) : Bool × List String :=
  let hdr := ["🧪 Testing Enhanced Timestamp Functionality...",
              "📡 Sending request to tools server..."]
  match r with
  | .exn e => (false, hdr ++ ["❌ Connection error: " ++ e, enhanced_hint])
  | .resp status body =>
    if status = 200 then
      if pyContains body "result" then
        match extractText body with
        | .ok (.str t) =>
          (true, hdr ++ ["✅ Enhanced timestamp query successful!",
                         "Response preview: " ++ enhanced_preview t,
                         timestamp_note t])
        | .ok _ =>
          (false, hdr ++ ["✅ Enhanced timestamp query successful!",
                          "❌ Connection error: TypeError: can only concatenate str to str",
                          enhanced_hint])
        | .error e =>
          (false, hdr ++ ["✅ Enhanced timestamp query successful!",
                          "❌ Connection error: " ++ e, enhanced_hint])
      else
        (false, hdr ++ ["❌ Enhanced timestamp query failed: " ++
                        pyShow (pyGetD body "error" (.str "Unknown error"))])
    else
      (false, hdr ++ ["❌ HTTP error: " ++ toString status])

/-- The closing lines printed by the test_enhanced_timestamps.py entry point
when the test returned True (lines 63-69). -/
def enhanced_success_tail : List String :=
  ["\n🎉 Enhanced timestamp functionality is working!",
   "The system now includes:",
   "- Multiple timestamp fields (createdAt, updatedAt, collectedAt, analyzedAt)",
   "- Enhanced metadata (eventCount, podCount, logLineCount)",
   "- Tags for better categorization",
   "- Better filtering and sorting capabilities"]

/-- The closing line printed by the test_enhanced_timestamps.py entry point
when the test returned False (line 73). -/
def enhanced_failure_tail : List String :=
  ["\n❌ Some tests failed. Check the system configuration."]

/-- Everything the `__main__` block of test_enhanced_timestamps.py prints in one
run (lines 59-73). -/
def enhanced_main (r : CallResult) : List String :=
  "🚀 Starting Enhanced Timestamp Tests..." ::
  ((test_enhanced_run r).snd ++
    (if (test_enhanced_run r).fst then enhanced_success_tail else enhanced_failure_tail))

/-- The success shape of the claim, written from its words: the POST
returned HTTP 200 with a JSON body containing a "result" key and the nested
field access succeeds (yielding a string). -/
def enhanced_ok (r : CallResult) : Bool :=
  match r with
  | .exn _ => false
  | .resp status body =>
    if status = 200 then
      if pyContains body "result" then
        match extractText body with
        | .ok (.str _) => true
        | _ => false
      else false
    else false

/-- `KAgentChatbotDemo.call_tool` (chatbot-demo.py lines 19-37): POST the
payload, let `raise_for_status` raise on an error status, catch any
`RequestException`, print an error line and substitute `{"error": str(e)}`.
Returns the lines printed inside `call_tool` and the value it returns.
The text of a raised `HTTPError` is transport-library-defined; it is
modelled canonically from the status code. -/
def call_tool_send (r : CallResult) (tool_name : String) : List String × Json :=
  match r with
  | .exn e =>
    (["Error calling tool " ++ tool_name ++ ": " ++ e], .obj [("error", .str e)])
  | .resp status body =>
    if 400 ≤ status then
      (["Error calling tool " ++ tool_name ++ ": " ++ toString status ++
        " Error for url: http://localhost:8084/jsonrpc"],
       .obj [("error", .str (toString status ++ " Error for url: http://localhost:8084/jsonrpc"))])
    else
      ([], body)

/-- The three shapes of call site in chatbot-demo.py: `demo_chatbot_query`
prints the text as is, `demo_remediation` prints a caption line and then the
text, `demo_intent_recognition` truncates texts longer than 200 characters. -/
inductive SiteKind where
  | plain
  | remediation
  | intent

/-- One demo call site handling one request: the lines printed for that
request (those of `call_tool` followed by those of the call site), or the
message of an unhandled exception.  The nested access on a body that has a
"result" field but lacks the expected structure raises outside any handler
(chatbot-demo.py lines 52-55, 86-89, 124-130). -/
def demo_site (k : SiteKind) (r : CallResult) (tool_name : String) :
    Except String (List String) :=
  let sent := call_tool_send r tool_name
  if pyContains sent.snd "result" then
    match extractText sent.snd with
    | .error e => .error e
    | .ok t =>
      match k with
      | .plain => .ok (sent.fst ++ ["Response: " ++ pyShow t])
      | .remediation => .ok (sent.fst ++ ["Remediation Script:", pyShow t])
      | .intent =>
        match t with
        | .str s => .ok (sent.fst ++ ["Response: " ++ intent_truncate s])
        | _ => .error "TypeError: can only concatenate str to str"
  else
    .ok (sent.fst ++ ["Error: " ++ pyShow (pyGetD sent.snd "error" (.str "Unknown error"))])

/-- The eleven `tools/call` requests of `run_full_demo`, in source order:
three from `demo_chatbot_query` (lines 46-79), one from `demo_remediation`
(lines 81-99), seven from `demo_intent_recognition` (lines 101-131). -/
def demoCalls : List (SiteKind × String × Json) :=
  [(.plain, "chatbot_query", .obj
      [("query", .str "What\x27s happening with our services?"),
       ("timeRange", .str "3h"), ("limit", .num 5)]),
   (.plain, "chatbot_query", .obj
      [("query", .str "Tell me about pod crashes"),
       ("timeRange", .str "1d"), ("limit", .num 10)]),
   (.plain, "chatbot_query", .obj
      [("query", .str "What critical alerts do we have?"),
       ("timeRange", .str "6h"), ("limit", .num 3)]),
   (.remediation, "get_remediation", .obj
      [("alertId", .str "test-crashing-pod-default-1722943743"),
       ("service", .str "test-crashing-pod"),
       ("namespace", .str "default")]),
   (.intent, "chatbot_query", .obj
      [("query", .str "Show me issues in the last 3 hours"),
       ("timeRange", .str "3h"), ("limit", .num 3)]),
   (.intent, "chatbot_query", .obj
      [("query", .str "What critical alerts do we have?"),
       ("timeRange", .str "3h"), ("limit", .num 3)]),
   (.intent, "chatbot_query", .obj
      [("query", .str "Any pod crashes recently?"),
       ("timeRange", .str "3h"), ("limit", .num 3)]),
   (.intent, "chatbot_query", .obj
      [("query", .str "Tell me about service issues"),
       ("timeRange", .str "3h"), ("limit", .num 3)]),
   (.intent, "chatbot_query", .obj
      [("query", .str "What resource problems are there?"),
       ("timeRange", .str "3h"), ("limit", .num 3)]),
   (.intent, "chatbot_query", .obj
      [("query", .str "Show me trends in the past week"),
       ("timeRange", .str "3h"), ("limit", .num 3)]),
   (.intent, "chatbot_query", .obj
      [("query", .str "Generate a fix for the crashing pod"),
       ("timeRange", .str "3h"), ("limit", .num 3)])]

/-- The `tools/call` request bodies actually POSTed while the demo works
through a list of call sites: each request is sent before its response is
handled, and an unhandled exception at a call site stops the run, so no
later request is sent.  `outcomes i` is the network outcome of the i-th
request. -/
def runDemoCalls (outcomes : Nat → CallResult) :
    Nat → List (SiteKind × String × Json) → List Json
  | _, [] => []
  | i, (k, t, a) :: rest =>
    call_tool_payload t a ::
      (match demo_site k (outcomes i) t with
       | .ok _ => runDemoCalls outcomes (i + 1) rest
       | .error _ => [])

/-- The `tools/call` request bodies POSTed by one run of `run_full_demo`
(chatbot-demo.py lines 134-158): the health probe `GET /health` gates
everything — on any non-200 status or a transport fault the method returns
before any demo call. -/
def run_full_demo (health : CallResult) (outcomes : Nat → CallResult) : List Json :=
  match health with
  | .exn _ => []
  | .resp status _ => if status = 200 then runDemoCalls outcomes 0 demoCalls else []

/-- The body `{"result":{"content":[{"text":t}]}}` of a well-formed success
response. -/
def result_body (t : String) : Json :=
  .obj [("result", .obj [("content", .arr [.obj [("text", .str t)]])])]

/-- The three per-call outcomes the scripts distinguish (spec section 4.1):
success with a well-formed result, success with an error field, transport
failure. -/
inductive CallOutcome where
  | success : String → CallOutcome
  | errField : Json → CallOutcome
  | fault : String → CallOutcome

/-- The network-level result realising each script-level outcome. -/
def outcomeBody : CallOutcome → CallResult
  | .success t => .resp 200 (result_body t)
  | .errField v => .resp 200 (.obj [("error", v)])
  | .fault m => .exn m

/-- How many lines report the outcome of one request at a
`demo_chatbot_query` call site (chatbot-demo.py lines 31-37 and 52-55):
every line printed while handling the request is about the outcome of that request. -/
def demo_report_count (r : CallResult) (tool_name : String) : Nat :=
  match demo_site .plain r tool_name with
  | .ok lines => lines.length
  | .error _ => 0

/-- The timeout chatbot-demo.py passes to its POST: none
(`self.session.post(url, json=payload)`, line 31). -/
def chatbot_demo_timeout : Option Nat := none

/-- The timeout test_chatbot.py passes to its POST: `timeout=30` (line 31). -/
def test_chatbot_timeout : Option Nat := some 30

/-- The timeout test_enhanced_timestamps.py passes to its POST:
`timeout=30` (line 32). -/
def test_enhanced_timestamps_timeout : Option Nat := some 30

/-- The per-script timeout configuration, in the order demo script,
test_chatbot.py, test_enhanced_timestamps.py. -/
def scriptTimeouts : List (Option Nat) :=
  [chatbot_demo_timeout, test_chatbot_timeout, test_enhanced_timestamps_timeout]

/-- Top-level field lookup on a request body. -/
def request_field (j : Json) (key : String) : Option Json :=
  match j with
  | .obj kvs => kvs.lookup key
  | _ => none

/-- The `params.name` field of a request body. -/
def request_tool_name (j : Json) : Option Json :=
  (request_field j "params").bind (fun p => request_field p "name")

/-- A 201-character text, longer than the 200-character threshold. -/
def longText : String :=
  ⟨List.replicate 201 'a'⟩

/-- Under each of the three script-level outcomes, a demo call site handles
the response without an unhandled exception. -/
lemma demo_site_outcome_ok (k : SiteKind) (o : CallOutcome) (t : String) :
    isOkE (demo_site k (outcomeBody o) t) = true := by
  cases o <;> cases k <;> rfl

/-- When every outcome is one of the three script-level outcomes, the demo
posts the request of every call site in the list, in order. -/
lemma runDemoCalls_outcomes (f : Nat → CallOutcome) :
    ∀ (calls : List (SiteKind × String × Json)) (i : Nat),
      runDemoCalls (fun n => outcomeBody (f n)) i calls =
        calls.map (fun c => call_tool_payload c.2.1 c.2.2) := by
  intro calls
  induction calls with
  | nil => intro i; rfl
  | cons c rest ih =>
    intro i
    obtain ⟨k, t, a⟩ := c
    have h := demo_site_outcome_ok k (f i) t
    cases hs : demo_site k (outcomeBody (f i)) t with
    | ok ls => simp [runDemoCalls, hs, ih]
    | error e => rw [hs] at h; simp [isOkE] at h

/-- Claim C1: for every tool name T (non-empty) and every arguments mapping
A, the JSON body POSTed by a tools/call request equals exactly the envelope
with jsonrpc "2.0", id 1, method "tools/call", params.name T and
params.arguments A, with no additional or missing fields; the two test
scripts build the same envelope with their fixed tool name and arguments. -/
theorem c1_request_shape (T : String) (A : Json) (hT : T ≠ "") :
    call_tool_payload T A = spec_request_envelope T A ∧
    test_chatbot_payload = spec_request_envelope "chatbot_query" test_chatbot_args ∧
    test_enhanced_payload = spec_request_envelope "chatbot_query" test_enhanced_args :=
  ⟨rfl, rfl, rfl⟩

/-- Witness for C1: the envelope equality at the concrete tool name
"chatbot_query" with an empty arguments mapping. -/
theorem c1_request_shape_witness :
    call_tool_payload "chatbot_query" (Json.obj []) =
      spec_request_envelope "chatbot_query" (Json.obj []) :=
  (c1_request_shape "chatbot_query" (Json.obj []) (by decide)).1

/-- Claim C2: run_full_demo sends a tools/call POST only when the health
probe returned HTTP 200; on any other status, and on a transport fault, the
request trace is empty. -/
theorem c2_health_gate (outcomes : Nat → CallResult) (health : CallResult) :
    (run_full_demo health outcomes ≠ [] → ∃ b, health = CallResult.resp 200 b) ∧
    ((∀ b, health ≠ CallResult.resp 200 b) → run_full_demo health outcomes = []) := by
  constructor
  · intro hne
    cases health with
    | exn e => exact absurd rfl hne
    | resp s b =>
      by_cases hs : s = 200
      · exact ⟨b, by rw [hs]⟩
      · exact absurd (by simp [run_full_demo, hs]) hne
  · intro hno
    cases health with
    | exn e => rfl
    | resp s b =>
      have hs : s ≠ 200 := fun h => hno b (by rw [h])
      simp [run_full_demo, hs]

/-- Witness for C2: a healthy probe yields a nonempty trace matching the
200 shape, while a 404 probe and a transport fault yield empty traces. -/
theorem c2_health_gate_witness :
    (∃ b, CallResult.resp 200 (Json.obj []) = CallResult.resp 200 b) ∧
    run_full_demo (CallResult.resp 404 (Json.obj []))
      (fun _ => CallResult.exn "connection refused") = [] ∧
    run_full_demo (CallResult.exn "connection refused")
      (fun _ => CallResult.exn "connection refused") = [] :=
  ⟨(c2_health_gate (fun _ => CallResult.exn "x") (CallResult.resp 200 (Json.obj []))).1
    (by
      intro h
      have h0 : (run_full_demo (CallResult.resp 200 (Json.obj []))
          (fun _ => CallResult.exn "x")).length = 0 := by rw [h]; rfl
      have h11 : (run_full_demo (CallResult.resp 200 (Json.obj []))
          (fun _ => CallResult.exn "x")).length = 11 := rfl
      exact absurd (h0.symm.trans h11) (by decide)),
   (c2_health_gate _ _).2 (fun b hb => by simp at hb),
   (c2_health_gate _ _).2 (fun b hb => by simp at hb)⟩

/-- Counterexample to C3 as stated: at the test_chatbot.py call site the
text "hi" is not longer than the 200-character threshold, yet the printed
line is "Response: hi..." — the ellipsis is appended even to short text, so
short text is not printed unmodified. -/
theorem c3_truncation_counterexample :
    pyLen "hi" ≤ 200 ∧
    test_chatbot_run (.resp 200 (result_body "hi")) =
      ["🧪 Testing KAgent Chatbot Agent...", "✅ Chatbot query test passed!",
       "Response: hi..."] ∧
    test_chatbot_preview "hi" ≠ "hi" :=
  ⟨by decide, rfl, by decide⟩

/-- Claim C3 amended: only the demo intent-recognition call site truncates
conditionally (text over 200 characters is cut to 200 plus an ellipsis,
shorter text is printed unmodified); the two test script call sites always
print the first 200 (resp. 500) characters with an ellipsis appended,
regardless of length. -/
theorem c3_truncation_amended (t : String) :
    (pyLen t > 200 →
      demo_site .intent (outcomeBody (.success t)) "chatbot_query" =
        .ok ["Response: " ++ (pyTake t 200 ++ "...")]) ∧
    (¬ pyLen t > 200 →
      demo_site .intent (outcomeBody (.success t)) "chatbot_query" =
        .ok ["Response: " ++ t]) ∧
    test_chatbot_run (.resp 200 (result_body t)) =
      ["🧪 Testing KAgent Chatbot Agent...", "✅ Chatbot query test passed!",
       "Response: " ++ test_chatbot_preview t] ∧
    (test_enhanced_run (.resp 200 (result_body t))).snd =
      ["🧪 Testing Enhanced Timestamp Functionality...",
       "📡 Sending request to tools server...",
       "✅ Enhanced timestamp query successful!",
       "Response preview: " ++ enhanced_preview t, timestamp_note t] := by
  refine ⟨?_, ?_, rfl, rfl⟩
  · intro h
    show Except.ok (([] : List String) ++ ["Response: " ++ intent_truncate t]) = _
    have ht : intent_truncate t = pyTake t 200 ++ "..." := by
      unfold intent_truncate; rw [if_pos h]
    rw [ht, List.nil_append]
  · intro h
    show Except.ok (([] : List String) ++ ["Response: " ++ intent_truncate t]) = _
    have ht : intent_truncate t = t := by
      unfold intent_truncate; rw [if_neg h]
    rw [ht, List.nil_append]

set_option maxRecDepth 4096 in
/-- Witness for C3 amended: the intent site truncates a 201-character text
and leaves "hi" alone. -/
theorem c3_truncation_witness :
    demo_site .intent (outcomeBody (.success longText)) "chatbot_query" =
      .ok ["Response: " ++ (pyTake longText 200 ++ "...")] ∧
    demo_site .intent (outcomeBody (.success "hi")) "chatbot_query" =
      .ok ["Response: " ++ "hi"] :=
  ⟨(c3_truncation_amended longText).1 (by decide),
   (c3_truncation_amended "hi").2.1 (by decide)⟩

/-- Counterexample to C4 as stated: on the HTTP-200 body
{"result": {}} (a "result" field with the nested "content" field absent),
test_chatbot.py does NOT terminate abruptly — its broad exception handler
catches the structural fault and the run completes, printing a
connection-error line; likewise test_enhanced_timestamps.py completes and
returns False.  Only the demo call site is left with an unhandled fault. -/
theorem c4_malformed_counterexample :
    test_chatbot_run (.resp 200 (Json.obj [("result", Json.obj [])])) =
      ["🧪 Testing KAgent Chatbot Agent...", "✅ Chatbot query test passed!",
       "❌ Connection error: KeyError: content", chatbot_hint] ∧
    (test_enhanced_run (.resp 200 (Json.obj [("result", Json.obj [])]))).fst = false ∧
    isOkE (demo_site .plain (.resp 200 (Json.obj [("result", Json.obj [])]))
      "chatbot_query") = false :=
  ⟨rfl, rfl, rfl⟩

/-- Claim C4 amended: for every HTTP-200 body with a "result" field whose
nested access fails, the demo script raises an unhandled structural-access
fault at each of its three call-site shapes, while the two test scripts
catch the fault in their broad exception handlers, print a connection-error
line, and complete normally (the enhanced script returning False). -/
theorem c4_malformed_amended (body : Json) (tool e : String)
    (hres : pyContains body "result" = true)
    (hext : extractText body = .error e) :
    demo_site .plain (.resp 200 body) tool = .error e ∧
    demo_site .remediation (.resp 200 body) tool = .error e ∧
    demo_site .intent (.resp 200 body) tool = .error e ∧
    test_chatbot_run (.resp 200 body) =
      ["🧪 Testing KAgent Chatbot Agent...", "✅ Chatbot query test passed!",
       "❌ Connection error: " ++ e, chatbot_hint] ∧
    test_enhanced_run (.resp 200 body) =
      (false, ["🧪 Testing Enhanced Timestamp Functionality...",
               "📡 Sending request to tools server...",
               "✅ Enhanced timestamp query successful!",
               "❌ Connection error: " ++ e, enhanced_hint]) := by
  have hsent : call_tool_send (CallResult.resp 200 body) tool = ([], body) := rfl
  refine ⟨?_, ?_, ?_, ?_, ?_⟩ <;>
    simp [demo_site, hsent, test_chatbot_run, test_enhanced_run, hres, hext]

/-- Witness for C4 amended: the malformed body {"result": {}} produces the
unhandled KeyError at the plain demo call site. -/
theorem c4_malformed_witness :
    demo_site .plain (.resp 200 (Json.obj [("result", Json.obj [])])) "chatbot_query" =
      .error "KeyError: content" :=
  (c4_malformed_amended (Json.obj [("result", Json.obj [])]) "chatbot_query"
    "KeyError: content" rfl rfl).1

/-- The HTTP-200 body {"error":"boom"}. -/
def boom_body : Json :=
  Json.obj [("error", Json.str "boom")]

/-- Claim C5: on an HTTP-200 body {"error":"boom"} each script prints a line
carrying "boom", no exception escapes the handling code, and the demo keeps
going — a full run in which every call gets this body still posts all 11
requests. -/
theorem c5_error_field_reported :
    demo_site .plain (.resp 200 boom_body) "chatbot_query" = .ok ["Error: boom"] ∧
    test_chatbot_run (.resp 200 boom_body) =
      ["🧪 Testing KAgent Chatbot Agent...", "❌ Chatbot query failed: boom"] ∧
    test_enhanced_run (.resp 200 boom_body) =
      (false, ["🧪 Testing Enhanced Timestamp Functionality...",
               "📡 Sending request to tools server...",
               "❌ Enhanced timestamp query failed: boom"]) ∧
    (run_full_demo (.resp 200 (Json.obj []))
      (fun _ => .resp 200 boom_body)).length = 11 :=
  ⟨rfl, rfl, rfl, rfl⟩

/-- Claim C6: a transport failure on a tools/call POST is caught by every
script: the demo prints the call_tool error line and the call-site error
line, the test scripts print their connection-error line plus a hint, and —
where the structure allows several calls — the demo continues: with every
call failing, all 11 requests are still posted. -/
theorem c6_transport_errors (e tool : String) :
    demo_site .plain (.exn e) tool =
      .ok (["Error calling tool " ++ tool ++ ": " ++ e] ++ ["Error: " ++ e]) ∧
    test_chatbot_run (.exn e) =
      ["🧪 Testing KAgent Chatbot Agent...", "❌ Connection error: " ++ e,
       chatbot_hint] ∧
    test_enhanced_run (.exn e) =
      (false, ["🧪 Testing Enhanced Timestamp Functionality...",
               "📡 Sending request to tools server...",
               "❌ Connection error: " ++ e, enhanced_hint]) ∧
    (run_full_demo (.resp 200 (Json.obj [])) (fun _ => .exn e)).length = 11 := by
  refine ⟨rfl, rfl, rfl, ?_⟩
  have h := runDemoCalls_outcomes (fun _ => CallOutcome.fault e) demoCalls 0
  calc (run_full_demo (.resp 200 (Json.obj [])) (fun _ => CallResult.exn e)).length
      = (demoCalls.map (fun c => call_tool_payload c.2.1 c.2.2)).length :=
        congrArg List.length h
    _ = 11 := rfl

/-- Counterexample to C7 as stated: on a transport failure, a single demo
request produces TWO printed response-reporting lines — the error line of
call_tool and the error line of the call site — not at most one. -/
theorem c7_single_report_counterexample :
    demo_site .plain (.exn "Connection refused") "chatbot_query" =
      .ok ["Error calling tool chatbot_query: Connection refused",
           "Error: Connection refused"] ∧
    demo_report_count (.exn "Connection refused") "chatbot_query" = 2 ∧
    ¬ demo_report_count (.exn "Connection refused") "chatbot_query" ≤ 1 :=
  ⟨rfl, rfl, by decide⟩

/-- Claim C7 amended: a demo request produces exactly one printed
response-reporting line in the success-with-result and
success-with-error-field outcomes, and exactly two in the transport-failure
outcome (one from call_tool, one from the call site). -/
theorem c7_single_report_amended (t tool : String) (v : Json) (e : String) :
    demo_report_count (outcomeBody (.success t)) tool = 1 ∧
    demo_report_count (outcomeBody (.errField v)) tool = 1 ∧
    demo_report_count (outcomeBody (.fault e)) tool = 2 :=
  ⟨rfl, rfl, rfl⟩

/-- Counterexample to C8 as stated: the number of scripts setting a
30-second timeout is two, not one. -/
theorem c8_timeout_counterexample :
    scriptTimeouts.count (some 30) = 2 ∧ scriptTimeouts.count (some 30) ≠ 1 :=
  ⟨by decide, by decide⟩

/-- Claim C8 amended: exactly two of the three scripts — the two test
scripts — set a 30-second timeout on their POST; the demo script sets none
and relies on the transport defaults. -/
theorem c8_timeout_amended :
    scriptTimeouts.count (some 30) = 2 ∧
    chatbot_demo_timeout = none ∧
    test_chatbot_timeout = some 30 ∧
    test_enhanced_timestamps_timeout = some 30 :=
  ⟨by decide, rfl, rfl, rfl⟩

/-- Claim C9: test_enhanced_timestamps returns True exactly when the POST
returned HTTP 200 with a body containing a "result" key and the nested
access succeeds; the final message of the entry point depends only on that
boolean; and the boolean is true for every response text, so the
Created/Updated/Collected substring check influences only the informational
line. -/
theorem c9_enhanced_return (r : CallResult) (t : String) :
    (test_enhanced_run r).fst = enhanced_ok r ∧
    enhanced_main r = "🚀 Starting Enhanced Timestamp Tests..." ::
      ((test_enhanced_run r).snd ++
        (if enhanced_ok r then enhanced_success_tail else enhanced_failure_tail)) ∧
    (test_enhanced_run (.resp 200 (result_body t))).fst = true := by
  have h : (test_enhanced_run r).fst = enhanced_ok r := by
    cases r with
    | exn e => rfl
    | resp s body =>
      by_cases hs : s = 200
      · subst hs
        cases hp : pyContains body "result" with
        | false => simp [test_enhanced_run, enhanced_ok, hp]
        | true =>
          cases hext : extractText body with
          | error e => simp [test_enhanced_run, enhanced_ok, hp, hext]
          | ok j => cases j <;> simp [test_enhanced_run, enhanced_ok, hp, hext]
      · simp [test_enhanced_run, enhanced_ok, hs]
  exact ⟨h, by simp only [enhanced_main, h], rfl⟩

/-- Claim C10: in every healthy-probe run, run_full_demo posts exactly 11
tools/call requests in the fixed order three chatbot_query, one
get_remediation, seven chatbot_query, each carrying id 1 and method
"tools/call", whatever the per-call outcome (success, error field, or
transport failure). -/
theorem c10_demo_trace (f : Nat → CallOutcome) (hb : Json) :
    (run_full_demo (.resp 200 hb) (fun n => outcomeBody (f n))).length = 11 ∧
    (run_full_demo (.resp 200 hb) (fun n => outcomeBody (f n))).map request_tool_name =
      [some (.str "chatbot_query"), some (.str "chatbot_query"),
       some (.str "chatbot_query"), some (.str "get_remediation"),
       some (.str "chatbot_query"), some (.str "chatbot_query"),
       some (.str "chatbot_query"), some (.str "chatbot_query"),
       some (.str "chatbot_query"), some (.str "chatbot_query"),
       some (.str "chatbot_query")] ∧
    (run_full_demo (.resp 200 hb) (fun n => outcomeBody (f n))).map
        (fun j => request_field j "id") =
      List.replicate 11 (some (Json.num 1)) ∧
    (run_full_demo (.resp 200 hb) (fun n => outcomeBody (f n))).map
        (fun j => request_field j "method") =
      List.replicate 11 (some (Json.str "tools/call")) := by
  have hr : run_full_demo (CallResult.resp 200 hb) (fun n => outcomeBody (f n)) =
      demoCalls.map (fun c => call_tool_payload c.2.1 c.2.2) :=
    runDemoCalls_outcomes f demoCalls 0
  refine ⟨?_, ?_, ?_, ?_⟩ <;> rw [hr] <;> rfl

end KAgentTools
